import Mathlib

/-!
Shallow embedding of the ligand locator/fetcher `get_ligand_cif` from
`src/spring_school_2024/pdbeccdutils.ipynb`, together with theorems that
settle the specification claims about it.

The Python source being modelled:

```
PDBECHEM_URL = "https://ftp.ebi.ac.uk/pub/databases/msd/pdbechem_v2"

class ligandType(Enum):
    CCD = "ccd"
    PRD = "prd"
    CLC = "clc"

def get_ligand_cif(ligand_id: str, ligand_type: ligandType) -> str:
    match ligand_type.value:
        case "ccd":
            ligand_dir = os.path.join("ccd", ligand_id[0], ligand_id)
        case "prd":
            ligand_dir = os.path.join("prd", ligand_id[-1],ligand_id)
        case "clc":
            ligand_dir = os.path.join("clc", ligand_id[-1],ligand_id)
    try:
        ligand_cif_path = os.path.join(PDBECHEM_URL, ligand_dir, f"\x7bligand_id\x7d.cif")
        response = requests.get(ligand_cif_path)
        assert response.status_code == 200
        ligand_cif_file = os.path.join(os.getcwd(), f"\x7bligand_id\x7d.cif")
        with open(ligand_cif_file, "wb") as fh:
            fh.write(response.content)
        return ligand_cif_file
    except  AssertionError:
        print(f"Couldn't find the file. Check if \x7bligand_id\x7d & \x7bligand_type\x7d are valid, if so try again")
```

Effects (the HTTP GET, the file write, printing) are made explicit: the
function is modelled as a pure map from a world environment (the response
the server would give, and whether the GET or the write raises an
environmental exception) and an initial filesystem to a run result that
records the outcome (returned value or uncaught exception), the final
filesystem, the list of URLs requested, and the lines printed.
-/

/-- Environmental exceptions that `requests.get` or the file write can raise
(network timeouts, connection failures, disk errors).  None of these is an
`AssertionError`, which is the only exception class the source catches. -/
inductive EnvExc
  | timeoutError
  | connectionError
  | ioError
deriving DecidableEq, Repr

/-- Python exceptions relevant to a run of `get_ligand_cif`:
`indexError` from `ligand_id[0]` / `ligand_id[-1]` on an empty string,
`unboundLocalError` from reading `ligand_dir` when no `case` of the
`match` statement assigned it, `assertionError` from the failed
`assert response.status_code == 200`, and wrapped environmental
exceptions from the GET or the write. -/
inductive PyExc
  | indexError
  | unboundLocalError
  | assertionError
  | envExc (e : EnvExc)
deriving DecidableEq, Repr

/-- Outcome of a call: a Python return value (`none` models Python's
implicit `None`, `some p` a returned path string), or an uncaught
exception propagating to the caller. -/
inductive Outcome
  | returned (path : Option String)
  | raised (e : PyExc)
deriving DecidableEq, Repr

/-- An HTTP response as seen by the source: status code and body bytes. -/
structure HttpResponse where
  status_code : Nat
  content : List Nat
deriving DecidableEq, Repr

/-- The world environment of one call: what `requests.get` yields (a
response, or an environmental exception), and whether the local file
write raises an environmental exception (`none` = the write succeeds). -/
structure WorldEnv where
  response : Except EnvExc HttpResponse
  writeExc : Option EnvExc

/-- The observable result of one call: outcome, final filesystem (a map
from path to file bytes), the URLs requested by GET in order, and the
lines printed. -/
structure RunResult where
  outcome : Outcome
  fs : String → Option (List Nat)
  gets : List String
  printed : List String

/-- The base URL constant `PDBECHEM_URL` of the notebook. -/
def PDBECHEM_URL : String := "https://ftp.ebi.ac.uk/pub/databases/msd/pdbechem_v2"

/-- The `ligandType` enumeration of the notebook. -/
inductive ligandType
  | CCD
  | PRD
  | CLC
deriving DecidableEq, Repr

/-- `ligand_type.value`: the string value of each enumeration member. -/
def ligandType.value : ligandType → String
  | .CCD => "ccd"
  | .PRD => "prd"
  | .CLC => "clc"

/-- `str(ligand_type)`: how a `ligandType` member renders inside the
f-string of the diagnostic message (Python `Enum.__str__`). -/
def ligandType.display : ligandType → String
  | .CCD => "ligandType.CCD"
  | .PRD => "ligandType.PRD"
  | .CLC => "ligandType.CLC"

/-- Two-argument `os.path.join` with POSIX semantics, as used by the
source: an absolute second component replaces the first; otherwise the
components are joined, inserting `/` unless the first is empty or already
ends with `/`. -/
def osPathJoin (a b : String) : String :=
  if b.data.head? = some '/' then b
  else if a = "" ∨ a.data.getLast? = some '/' then a ++ b
  else a ++ "/" ++ b

/-- The `match ligand_type.value:` statement of the source, executed
before the `try` block, dispatching on the raw string `value`.
`none` models an `IndexError` from indexing into an empty `ligand_id`;
`some none` models the fall-through case in which no `case` matches and
`ligand_dir` is left unbound; `some (some d)` binds `ligand_dir = d`.
For `"ccd"` the shard is `ligand_id[0]`, for `"prd"` and `"clc"` it is
`ligand_id[-1]`. -/
def matchLigandDir (value : String) (ligand_id : String) : Option (Option String) :=
  if value = "ccd" then
    match ligand_id.data.head? with
    | none => none
    | some c => some (some (osPathJoin (osPathJoin "ccd" (String.singleton c)) ligand_id))
  else if value = "prd" then
    match ligand_id.data.getLast? with
    | none => none
    | some c => some (some (osPathJoin (osPathJoin "prd" (String.singleton c)) ligand_id))
  else if value = "clc" then
    match ligand_id.data.getLast? with
    | none => none
    | some c => some (some (osPathJoin (osPathJoin "clc" (String.singleton c)) ligand_id))
  else some none

/-- The diagnostic printed by the `except AssertionError` handler. -/
def failMsg (ligand_id : String) (ltDisplay : String) : String :=
  "Couldn't find the file. Check if " ++ ligand_id ++ " & " ++ ltDisplay ++
    " are valid, if so try again"

/-- The body of `get_ligand_cif`, parameterised over the raw string
`value` that `ligand_type.value` evaluates to (so that calls whose
category value matches no `case` can be analysed) and the display string
of the category.  Mirrors the source control flow statement by
statement. -/
def get_ligand_cif_run (w : WorldEnv) (cwd : String) (fs : String → Option (List Nat))
    (ligand_id : String) (value : String) (ltDisplay : String) : RunResult :=
  match matchLigandDir value ligand_id with
  | none =>
      { outcome := .raised .indexError, fs := fs, gets := [], printed := [] }
  | some none =>
      { outcome := .raised .unboundLocalError, fs := fs, gets := [], printed := [] }
  | some (some ligand_dir) =>
      let ligand_cif_path := osPathJoin (osPathJoin PDBECHEM_URL ligand_dir) (ligand_id ++ ".cif")
      match w.response with
      | .error e =>
          { outcome := .raised (.envExc e), fs := fs, gets := [ligand_cif_path], printed := [] }
      | .ok response =>
          if response.status_code = 200 then
            match w.writeExc with
            | some e =>
                { outcome := .raised (.envExc e), fs := fs, gets := [ligand_cif_path],
                  printed := [] }
            | none =>
                let ligand_cif_file := osPathJoin cwd (ligand_id ++ ".cif")
                { outcome := .returned (some ligand_cif_file),
                  fs := fun p => if p = ligand_cif_file then some response.content else fs p,
                  gets := [ligand_cif_path], printed := [] }
          else
            { outcome := .returned none, fs := fs, gets := [ligand_cif_path],
              printed := [failMsg ligand_id ltDisplay] }

/-- `get_ligand_cif(ligand_id, ligand_type)` for an actual `ligandType`
member, as called in the notebook. -/
def get_ligand_cif (w : WorldEnv) (cwd : String) (fs : String → Option (List Nat))
    (ligand_id : String) (ligand_type : ligandType) : RunResult :=
  get_ligand_cif_run w cwd fs ligand_id ligand_type.value ligand_type.display

/-- The shard character the source derives for each category:
`ligand_id[0]` for CCD, `ligand_id[-1]` for PRD and CLC. -/
def shardChar : ligandType → String → Option Char
  | .CCD, ligand_id => ligand_id.data.head?
  | .PRD, ligand_id => ligand_id.data.getLast?
  | .CLC, ligand_id => ligand_id.data.getLast?

/-! ### String and list helpers for flattening `os.path.join` chains -/

/-- Strings with equal character data are equal. -/
lemma str_ext {a b : String} (h : a.data = b.data) : a = b := by
  cases a
  cases b
  exact congrArg String.mk h

/-- A string differs from the empty string iff its data is nonempty. -/
lemma str_ne_empty_iff {s : String} : s ≠ "" ↔ s.data ≠ [] := by
  constructor
  · intro h hd
    exact h (str_ext hd)
  · intro h he
    subst he
    exact h rfl

/-- Data of `String.singleton`. -/
lemma singleton_data (c : Char) : (String.singleton c).data = [c] := rfl

/-- `head?` of an append is the head of a nonempty left part. -/
lemma head?_append_left {l₁ l₂ : List Char} {c : Char} (h : l₁.head? = some c) :
    (l₁ ++ l₂).head? = some c := by
  cases l₁ <;> simp_all

/-- `head?` of a string append, from the left string. -/
lemma str_head?_append {u : String} (v : String) {c : Char} (h : u.data.head? = some c) :
    (u ++ v).data.head? = some c := by
  rw [String.data_append]
  exact head?_append_left h

/-- `getLast?` of a string append in terms of the parts. -/
lemma str_getLast?_append (u v : String) :
    (u ++ v).data.getLast? = v.data.getLast?.or u.data.getLast? := by
  rw [String.data_append, List.getLast?_append]

/-- The head of a list is a member. -/
lemma mem_of_head?_eq {l : List Char} {c : Char} (h : l.head? = some c) : c ∈ l := by
  cases l <;> simp_all

/-- The last element of a list is a member. -/
lemma mem_of_getLast?_eq : ∀ {l : List Char} {c : Char}, l.getLast? = some c → c ∈ l := by
  intro l
  induction l with
  | nil => intro c h; simp at h
  | cons a t ih =>
    intro c h
    cases t with
    | nil => simp_all
    | cons b u =>
      rw [List.getLast?_cons_cons] at h
      exact List.mem_cons_of_mem _ (ih h)

/-- When the second component is not absolute and the first is nonempty and
does not end in a separator, `os.path.join` inserts exactly one `/`. -/
lemma osPathJoin_flat {a b : String} (ha : a ≠ "") (ha2 : a.data.getLast? ≠ some '/')
    (hb : b.data.head? ≠ some '/') : osPathJoin a b = a ++ "/" ++ b := by
  unfold osPathJoin
  rw [if_neg hb, if_neg]
  push_neg
  exact ⟨ha, ha2⟩

/-- Flattening of the `ligand_dir` join
`os.path.join(cat, shard_char, ligand_id)` for a category segment `cat`
whose literal is `"ccd"`, `"prd"` or `"clc"`, a shard character that is
not a separator, and an identifier that does not start with one. -/
lemma ligandDir_flat {cat id : String} {c : Char} (hcat : cat ≠ "")
    (hcat2 : cat.data.getLast? ≠ some '/') (hc : c ≠ '/')
    (hid : id.data.head? ≠ some '/') :
    osPathJoin (osPathJoin cat (String.singleton c)) id =
      cat ++ "/" ++ String.singleton c ++ "/" ++ id := by
  have h1 : osPathJoin cat (String.singleton c) = cat ++ "/" ++ String.singleton c :=
    osPathJoin_flat hcat hcat2 (by simp [singleton_data, hc])
  rw [h1]
  have h2 : osPathJoin (cat ++ "/" ++ String.singleton c) id =
      (cat ++ "/" ++ String.singleton c) ++ "/" ++ id := by
    refine osPathJoin_flat ?_ ?_ hid
    · rw [str_ne_empty_iff, String.data_append]
      simp
    · rw [str_getLast?_append, str_getLast?_append, singleton_data]
      simp [hc]
  rw [h2]

/-- A list with a head is nonempty. -/
lemma ne_nil_of_head?_eq {l : List Char} {c : Char} (h : l.head? = some c) : l ≠ [] := by
  cases l <;> simp_all

/-- A nonempty list has a head. -/
lemma exists_head?_of_ne_nil {l : List Char} (h : l ≠ []) : ∃ c, l.head? = some c := by
  cases l with
  | nil => exact absurd rfl h
  | cons a t => exact ⟨a, rfl⟩

/-- A nonempty list has a last element. -/
lemma exists_getLast?_of_ne_nil : ∀ {l : List Char}, l ≠ [] → ∃ c, l.getLast? = some c := by
  intro l
  induction l with
  | nil => intro h; exact absurd rfl h
  | cons a t ih =>
    intro _
    cases t with
    | nil => exact ⟨a, by simp⟩
    | cons b u =>
      obtain ⟨c, hc⟩ := ih (by simp)
      exact ⟨c, by rw [List.getLast?_cons_cons]; exact hc⟩

/-- Flattening of the full remote URL join
`os.path.join(PDBECHEM_URL, ligand_dir, ligand_id + ".cif")` once
`ligand_dir` is in flattened form. -/
lemma full_url_flat {cat id : String} {c c0 clast : Char}
    (hcathead : cat.data.head? = some c0) (hc0 : c0 ≠ '/')
    (hidlast : id.data.getLast? = some clast) (hclast : clast ≠ '/')
    (hidhead : id.data.head? ≠ some '/') :
    osPathJoin (osPathJoin PDBECHEM_URL (cat ++ "/" ++ String.singleton c ++ "/" ++ id))
        (id ++ ".cif") =
      PDBECHEM_URL ++ "/" ++ cat ++ "/" ++ String.singleton c ++ "/" ++ id ++ "/" ++
        id ++ ".cif" := by
  have hdirhead : (cat ++ "/" ++ String.singleton c ++ "/" ++ id).data.head? = some c0 :=
    str_head?_append _ (str_head?_append _ (str_head?_append _ (str_head?_append _ hcathead)))
  have h1 : osPathJoin PDBECHEM_URL (cat ++ "/" ++ String.singleton c ++ "/" ++ id) =
      PDBECHEM_URL ++ "/" ++ (cat ++ "/" ++ String.singleton c ++ "/" ++ id) := by
    refine osPathJoin_flat (by decide) (by decide) ?_
    rw [hdirhead]
    simp [hc0]
  rw [h1]
  have hdirlast : (cat ++ "/" ++ String.singleton c ++ "/" ++ id).data.getLast? = some clast := by
    rw [str_getLast?_append, hidlast]
    rfl
  have hidne : id.data ≠ [] := by
    intro hnil
    rw [hnil] at hidlast
    cases hidlast
  obtain ⟨cid, hcid⟩ := exists_head?_of_ne_nil hidne
  have hcid' : cid ≠ '/' := by
    intro h
    exact hidhead (by rw [hcid, h])
  have h2 : osPathJoin (PDBECHEM_URL ++ "/" ++ (cat ++ "/" ++ String.singleton c ++ "/" ++ id))
      (id ++ ".cif") =
      PDBECHEM_URL ++ "/" ++ (cat ++ "/" ++ String.singleton c ++ "/" ++ id) ++ "/" ++
        (id ++ ".cif") := by
    refine osPathJoin_flat ?_ ?_ ?_
    · rw [str_ne_empty_iff]
      exact ne_nil_of_head?_eq
        (str_head?_append _ (str_head?_append _ (rfl : PDBECHEM_URL.data.head? = some 'h')))
    · rw [str_getLast?_append, hdirlast]
      simp [hclast]
    · rw [String.data_append]
      rw [head?_append_left hcid]
      simp [hcid']
  rw [h2]
  apply str_ext
  simp [String.data_append, List.append_assoc]

/-! ### Computation rules for the `match ligand_type.value:` dispatch -/

/-- Dispatch for category value `"ccd"`: the shard is the first character. -/
lemma matchLigandDir_ccd {id : String} {c : Char} (h : id.data.head? = some c) :
    matchLigandDir "ccd" id =
      some (some (osPathJoin (osPathJoin "ccd" (String.singleton c)) id)) := by
  unfold matchLigandDir
  rw [if_pos rfl, h]

/-- Dispatch for category value `"prd"`: the shard is the last character. -/
lemma matchLigandDir_prd {id : String} {c : Char} (h : id.data.getLast? = some c) :
    matchLigandDir "prd" id =
      some (some (osPathJoin (osPathJoin "prd" (String.singleton c)) id)) := by
  unfold matchLigandDir
  rw [if_neg (by decide), if_pos rfl, h]

/-- Dispatch for category value `"clc"`: the shard is the last character. -/
lemma matchLigandDir_clc {id : String} {c : Char} (h : id.data.getLast? = some c) :
    matchLigandDir "clc" id =
      some (some (osPathJoin (osPathJoin "clc" (String.singleton c)) id)) := by
  unfold matchLigandDir
  rw [if_neg (by decide), if_neg (by decide), if_pos rfl, h]

/-- On an empty identifier every recognised category raises `IndexError`
inside the dispatch. -/
lemma matchLigandDir_empty (lt : ligandType) : matchLigandDir lt.value "" = none := by
  cases lt <;> rfl

/-- A value matching no `case` leaves `ligand_dir` unbound. -/
lemma matchLigandDir_unmatched {v : String} (h : ∀ lt : ligandType, v ≠ lt.value)
    (id : String) : matchLigandDir v id = some none := by
  unfold matchLigandDir
  rw [if_neg (show ¬ v = "ccd" from h .CCD), if_neg (show ¬ v = "prd" from h .PRD),
    if_neg (show ¬ v = "clc" from h .CLC)]

/-- For a nonempty identifier, the dispatch on a member's value binds
`ligand_dir` to the joined `<category>/<shard>/<identifier>` path, where
the shard character is `shardChar`. -/
lemma matchLigandDir_value {id : String} (hne : id ≠ "") (lt : ligandType) :
    ∃ c, shardChar lt id = some c ∧
      matchLigandDir lt.value id =
        some (some (osPathJoin (osPathJoin lt.value (String.singleton c)) id)) := by
  have hd : id.data ≠ [] := str_ne_empty_iff.mp hne
  cases lt with
  | CCD =>
    obtain ⟨c, hc⟩ := exists_head?_of_ne_nil hd
    exact ⟨c, hc, matchLigandDir_ccd hc⟩
  | PRD =>
    obtain ⟨c, hc⟩ := exists_getLast?_of_ne_nil hd
    exact ⟨c, hc, matchLigandDir_prd hc⟩
  | CLC =>
    obtain ⟨c, hc⟩ := exists_getLast?_of_ne_nil hd
    exact ⟨c, hc, matchLigandDir_clc hc⟩

/-! ### Computation rules for `get_ligand_cif_run`, one per control path -/

/-- Empty-identifier path: `IndexError` propagates, nothing requested,
nothing written. -/
lemma run_index_error {w : WorldEnv} {cwd : String} {fs : String → Option (List Nat)}
    {id v disp : String} (h : matchLigandDir v id = none) :
    get_ligand_cif_run w cwd fs id v disp =
      { outcome := .raised .indexError, fs := fs, gets := [], printed := [] } := by
  unfold get_ligand_cif_run
  rw [h]

/-- Unmatched-category path: `UnboundLocalError` propagates, nothing
requested, nothing written. -/
lemma run_unbound {w : WorldEnv} {cwd : String} {fs : String → Option (List Nat)}
    {id v disp : String} (h : matchLigandDir v id = some none) :
    get_ligand_cif_run w cwd fs id v disp =
      { outcome := .raised .unboundLocalError, fs := fs, gets := [], printed := [] } := by
  unfold get_ligand_cif_run
  rw [h]

/-- GET-exception path: the environmental exception propagates after the
single GET. -/
lemma run_get_exc {w : WorldEnv} {cwd : String} {fs : String → Option (List Nat)}
    {id v disp dir : String} {e : EnvExc} (h : matchLigandDir v id = some (some dir))
    (hw : w.response = .error e) :
    get_ligand_cif_run w cwd fs id v disp =
      { outcome := .raised (.envExc e), fs := fs,
        gets := [osPathJoin (osPathJoin PDBECHEM_URL dir) (id ++ ".cif")], printed := [] } := by
  unfold get_ligand_cif_run
  rw [h, hw]

/-- Success path: status 200 and a clean write. -/
lemma run_ok_200 {w : WorldEnv} {cwd : String} {fs : String → Option (List Nat)}
    {id v disp dir : String} {resp : HttpResponse} (h : matchLigandDir v id = some (some dir))
    (hw : w.response = .ok resp) (h200 : resp.status_code = 200) (hwr : w.writeExc = none) :
    get_ligand_cif_run w cwd fs id v disp =
      { outcome := .returned (some (osPathJoin cwd (id ++ ".cif"))),
        fs := fun p => if p = osPathJoin cwd (id ++ ".cif") then some resp.content else fs p,
        gets := [osPathJoin (osPathJoin PDBECHEM_URL dir) (id ++ ".cif")], printed := [] } := by
  unfold get_ligand_cif_run
  rw [h, hw]
  simp [h200, hwr]

/-- Write-exception path: status 200 but the write raises; the exception
propagates and the filesystem is unchanged. -/
lemma run_write_exc {w : WorldEnv} {cwd : String} {fs : String → Option (List Nat)}
    {id v disp dir : String} {resp : HttpResponse} {e : EnvExc}
    (h : matchLigandDir v id = some (some dir)) (hw : w.response = .ok resp)
    (h200 : resp.status_code = 200) (hwr : w.writeExc = some e) :
    get_ligand_cif_run w cwd fs id v disp =
      { outcome := .raised (.envExc e), fs := fs,
        gets := [osPathJoin (osPathJoin PDBECHEM_URL dir) (id ++ ".cif")], printed := [] } := by
  unfold get_ligand_cif_run
  rw [h, hw]
  simp [h200, hwr]

/-- Failed-assert path: non-200 status, the `AssertionError` is caught,
the diagnostic is printed and `None` is returned. -/
lemma run_not_200 {w : WorldEnv} {cwd : String} {fs : String → Option (List Nat)}
    {id v disp dir : String} {resp : HttpResponse}
    (h : matchLigandDir v id = some (some dir)) (hw : w.response = .ok resp)
    (h200 : resp.status_code ≠ 200) :
    get_ligand_cif_run w cwd fs id v disp =
      { outcome := .returned none, fs := fs,
        gets := [osPathJoin (osPathJoin PDBECHEM_URL dir) (id ++ ".cif")],
        printed := [failMsg id disp] } := by
  unfold get_ligand_cif_run
  rw [h, hw]
  simp [h200]

/-- The request trace contains exactly the assembled URL whenever the
dispatch bound `ligand_dir`, whatever the network and filesystem do. -/
lemma run_gets_of_dir {w : WorldEnv} {cwd : String} {fs : String → Option (List Nat)}
    {id v disp dir : String} (h : matchLigandDir v id = some (some dir)) :
    (get_ligand_cif_run w cwd fs id v disp).gets =
      [osPathJoin (osPathJoin PDBECHEM_URL dir) (id ++ ".cif")] := by
  obtain ⟨resp, wexc⟩ := w
  cases resp with
  | error e => rw [run_get_exc h rfl]
  | ok r =>
    by_cases h200 : r.status_code = 200
    · cases wexc with
      | none => rw [run_ok_200 h rfl h200 rfl]
      | some e => rw [run_write_exc h rfl h200 rfl]
    · rw [run_not_200 h rfl h200]

/-- Never more than one GET per call, on any path. -/
lemma gets_length_le_one (w : WorldEnv) (cwd : String) (fs : String → Option (List Nat))
    (id v disp : String) : (get_ligand_cif_run w cwd fs id v disp).gets.length ≤ 1 := by
  cases h : matchLigandDir v id with
  | none =>
    rw [run_index_error h]
    simp
  | some o =>
    cases o with
    | none =>
      rw [run_unbound h]
      simp
    | some dir =>
      rw [run_gets_of_dir h]
      simp

/-- The shard character is a character of the identifier. -/
lemma shardChar_mem {lt : ligandType} {id : String} {c : Char}
    (h : shardChar lt id = some c) : c ∈ id.data := by
  cases lt with
  | CCD => exact mem_of_head?_eq h
  | PRD => exact mem_of_getLast?_eq h
  | CLC => exact mem_of_getLast?_eq h

/-- C1: for every non-empty identifier, the shard directory bound by the
`match` statement of `get_ligand_cif` is `<category>/<shard>/<identifier>`
where the shard is exactly the first character of the identifier for
category CCD and exactly the last character for PRD and CLC, with no case
normalization of the shard character. -/
theorem shard_first_char_ccd_last_char_prd_clc (id : String) (hne : id ≠ "")
    (hsl : ∀ ch ∈ id.data, ch ≠ '/') :
    (∃ c, id.data.head? = some c ∧
       matchLigandDir (ligandType.value .CCD) id =
         some (some ("ccd" ++ "/" ++ String.singleton c ++ "/" ++ id))) ∧
    (∃ c, id.data.getLast? = some c ∧
       matchLigandDir (ligandType.value .PRD) id =
         some (some ("prd" ++ "/" ++ String.singleton c ++ "/" ++ id)) ∧
       matchLigandDir (ligandType.value .CLC) id =
         some (some ("clc" ++ "/" ++ String.singleton c ++ "/" ++ id))) := by
  have hd : id.data ≠ [] := str_ne_empty_iff.mp hne
  have hidh : id.data.head? ≠ some '/' := by
    obtain ⟨c, hc⟩ := exists_head?_of_ne_nil hd
    rw [hc]
    simp [hsl c (mem_of_head?_eq hc)]
  constructor
  · obtain ⟨c, hc⟩ := exists_head?_of_ne_nil hd
    refine ⟨c, hc, ?_⟩
    rw [show ligandType.value .CCD = "ccd" from rfl, matchLigandDir_ccd hc,
      ligandDir_flat (by decide) (by decide) (hsl c (mem_of_head?_eq hc)) hidh]
  · obtain ⟨c, hc⟩ := exists_getLast?_of_ne_nil hd
    refine ⟨c, hc, ?_, ?_⟩
    · rw [show ligandType.value .PRD = "prd" from rfl, matchLigandDir_prd hc,
        ligandDir_flat (by decide) (by decide) (hsl c (mem_of_getLast?_eq hc)) hidh]
    · rw [show ligandType.value .CLC = "clc" from rfl, matchLigandDir_clc hc,
        ligandDir_flat (by decide) (by decide) (hsl c (mem_of_getLast?_eq hc)) hidh]

/-- C1 witness: the mixed-case identifier `"hM"` shards to its first
character `h` under CCD and its last character `M` under PRD and CLC. -/
theorem shard_first_char_ccd_last_char_prd_clc_witness :
    (∃ c, ("hM" : String).data.head? = some c ∧
       matchLigandDir (ligandType.value .CCD) "hM" =
         some (some ("ccd" ++ "/" ++ String.singleton c ++ "/" ++ "hM"))) ∧
    (∃ c, ("hM" : String).data.getLast? = some c ∧
       matchLigandDir (ligandType.value .PRD) "hM" =
         some (some ("prd" ++ "/" ++ String.singleton c ++ "/" ++ "hM")) ∧
       matchLigandDir (ligandType.value .CLC) "hM" =
         some (some ("clc" ++ "/" ++ String.singleton c ++ "/" ++ "hM"))) :=
  shard_first_char_ccd_last_char_prd_clc "hM" (by decide) (by decide)

/-- C2: for every non-empty identifier over the identifier alphabet (no
path separator, per the data model identifiers are alphanumeric) and
every category, the single requested URL is the base URL followed by the
segments `<category>/<shard>/<identifier>/<identifier>.cif` in order. -/
theorem url_is_base_category_shard_id_id_cif (w : WorldEnv) (cwd : String)
    (fs : String → Option (List Nat)) (id : String) (lt : ligandType)
    (hne : id ≠ "") (hsl : ∀ ch ∈ id.data, ch ≠ '/') :
    ∃ c, shardChar lt id = some c ∧
      (get_ligand_cif w cwd fs id lt).gets =
        [PDBECHEM_URL ++ "/" ++ lt.value ++ "/" ++ String.singleton c ++ "/" ++ id ++ "/" ++
          id ++ ".cif"] := by
  have hd : id.data ≠ [] := str_ne_empty_iff.mp hne
  obtain ⟨c, hc, hm⟩ := matchLigandDir_value hne lt
  refine ⟨c, hc, ?_⟩
  have hidh : id.data.head? ≠ some '/' := by
    obtain ⟨c0, hc0⟩ := exists_head?_of_ne_nil hd
    rw [hc0]
    simp [hsl c0 (mem_of_head?_eq hc0)]
  obtain ⟨clast, hclast⟩ := exists_getLast?_of_ne_nil hd
  have hclast' : clast ≠ '/' := hsl _ (mem_of_getLast?_eq hclast)
  have hv1 : lt.value ≠ "" := by cases lt <;> decide
  have hv2 : lt.value.data.getLast? ≠ some '/' := by cases lt <;> decide
  have hc' : c ≠ '/' := hsl _ (shardChar_mem hc)
  obtain ⟨c0, hch, hch'⟩ : ∃ c0, lt.value.data.head? = some c0 ∧ c0 ≠ '/' := by
    cases lt <;> exact ⟨_, rfl, by decide⟩
  unfold get_ligand_cif
  rw [run_gets_of_dir hm, ligandDir_flat hv1 hv2 hc' hidh,
    full_url_flat hch hch' hclast hclast' hidh]

/-- C2 witness: fetching `"HEM"` under CCD requests exactly
`<base>/ccd/H/HEM/HEM.cif`. -/
theorem url_is_base_category_shard_id_id_cif_witness :
    ∃ c, shardChar .CCD "HEM" = some c ∧
      (get_ligand_cif ⟨.ok ⟨200, [1, 2]⟩, none⟩ "/wd" (fun _ => none) "HEM" .CCD).gets =
        [PDBECHEM_URL ++ "/" ++ ligandType.value .CCD ++ "/" ++ String.singleton c ++ "/" ++
          "HEM" ++ "/" ++ "HEM" ++ ".cif"] :=
  url_is_base_category_shard_id_id_cif ⟨.ok ⟨200, [1, 2]⟩, none⟩ "/wd" (fun _ => none)
    "HEM" .CCD (by decide) (by decide)

/-- C3: with the write succeeding, a returned path exists iff the response
status is exactly 200; the call issues exactly one GET, and no call ever
issues more than one (no retry). -/
theorem success_iff_status_200_single_get (cwd : String) (fs : String → Option (List Nat))
    (id : String) (lt : ligandType) (resp : HttpResponse) (hne : id ≠ "") :
    ((∃ p, (get_ligand_cif ⟨.ok resp, none⟩ cwd fs id lt).outcome = .returned (some p)) ↔
        resp.status_code = 200) ∧
    (get_ligand_cif ⟨.ok resp, none⟩ cwd fs id lt).gets.length = 1 ∧
    ∀ w : WorldEnv, (get_ligand_cif w cwd fs id lt).gets.length ≤ 1 := by
  obtain ⟨c, hc, hm⟩ := matchLigandDir_value hne lt
  refine ⟨⟨?_, ?_⟩, ?_, ?_⟩
  · rintro ⟨p, hp⟩
    by_contra h200
    unfold get_ligand_cif at hp
    rw [run_not_200 hm rfl h200] at hp
    simp at hp
  · intro h200
    refine ⟨osPathJoin cwd (id ++ ".cif"), ?_⟩
    unfold get_ligand_cif
    rw [run_ok_200 hm rfl h200 rfl]
  · unfold get_ligand_cif
    rw [run_gets_of_dir hm]
    rfl
  · intro w
    exact gets_length_le_one w cwd fs id lt.value lt.display

/-- C3 witness at identifier `"ATP"`, category PRD, a 404 response. -/
theorem success_iff_status_200_single_get_witness :
    ((∃ p, (get_ligand_cif ⟨.ok ⟨404, []⟩, none⟩ "/w3" (fun _ => none) "ATP" .PRD).outcome =
        .returned (some p)) ↔ (404 : Nat) = 200) ∧
    (get_ligand_cif ⟨.ok ⟨404, []⟩, none⟩ "/w3" (fun _ => none) "ATP" .PRD).gets.length = 1 ∧
    ∀ w : WorldEnv, (get_ligand_cif w "/w3" (fun _ => none) "ATP" .PRD).gets.length ≤ 1 :=
  success_iff_status_200_single_get "/w3" (fun _ => none) "ATP" .PRD ⟨404, []⟩ (by decide)

/-- C4: on a 200 response the whole payload is written, byte for byte, to
`<identifier>.cif` under the current working directory, and that path is
returned; in particular the stored byte length equals the payload
length. -/
theorem success_writes_payload_returns_path (cwd : String) (fs : String → Option (List Nat))
    (id : String) (lt : ligandType) (resp : HttpResponse) (hne : id ≠ "")
    (h200 : resp.status_code = 200) :
    (get_ligand_cif ⟨.ok resp, none⟩ cwd fs id lt).outcome =
      .returned (some (osPathJoin cwd (id ++ ".cif"))) ∧
    (get_ligand_cif ⟨.ok resp, none⟩ cwd fs id lt).fs (osPathJoin cwd (id ++ ".cif")) =
      some resp.content ∧
    ∀ bs, (get_ligand_cif ⟨.ok resp, none⟩ cwd fs id lt).fs (osPathJoin cwd (id ++ ".cif")) =
        some bs → bs.length = resp.content.length := by
  obtain ⟨c, hc, hm⟩ := matchLigandDir_value hne lt
  unfold get_ligand_cif
  rw [run_ok_200 hm rfl h200 rfl]
  refine ⟨rfl, by simp, ?_⟩
  intro bs hbs
  simp at hbs
  rw [hbs]

/-- C4 witness: fetching `"HEM"` (CCD, status 200, payload `[72, 69, 77]`)
stores exactly that payload at the returned path. -/
theorem success_writes_payload_returns_path_witness :
    (get_ligand_cif ⟨.ok ⟨200, [72, 69, 77]⟩, none⟩ "/w4" (fun _ => none) "HEM" .CCD).outcome =
      .returned (some (osPathJoin "/w4" ("HEM" ++ ".cif"))) ∧
    (get_ligand_cif ⟨.ok ⟨200, [72, 69, 77]⟩, none⟩ "/w4" (fun _ => none) "HEM" .CCD).fs
      (osPathJoin "/w4" ("HEM" ++ ".cif")) = some [72, 69, 77] ∧
    ∀ bs, (get_ligand_cif ⟨.ok ⟨200, [72, 69, 77]⟩, none⟩ "/w4" (fun _ => none) "HEM" .CCD).fs
        (osPathJoin "/w4" ("HEM" ++ ".cif")) = some bs →
      bs.length = [72, 69, 77].length :=
  success_writes_payload_returns_path "/w4" (fun _ => none) "HEM" .CCD ⟨200, [72, 69, 77]⟩
    (by decide) rfl

/-- C5: on a non-200 status no file is created, the printed line names the
identifier and the category, `None` is returned, and no exception
escapes. -/
theorem non_success_prints_and_returns_none (w : WorldEnv) (cwd : String)
    (fs : String → Option (List Nat)) (id : String) (lt : ligandType) (resp : HttpResponse)
    (hne : id ≠ "") (hw : w.response = .ok resp) (h200 : resp.status_code ≠ 200) :
    (get_ligand_cif w cwd fs id lt).outcome = .returned none ∧
    (∀ p, (get_ligand_cif w cwd fs id lt).fs p = fs p) ∧
    ∃ pre mid post, (get_ligand_cif w cwd fs id lt).printed =
      [pre ++ id ++ mid ++ lt.display ++ post] := by
  obtain ⟨c, hc, hm⟩ := matchLigandDir_value hne lt
  unfold get_ligand_cif
  rw [run_not_200 hm hw h200]
  exact ⟨rfl, fun p => rfl,
    "Couldn't find the file. Check if ", " & ", " are valid, if so try again", rfl⟩

/-- C5 witness: a 404 for `"ZZZZ999"` under CCD writes nothing and prints
the diagnostic naming identifier and category. -/
theorem non_success_prints_and_returns_none_witness :
    (get_ligand_cif ⟨.ok ⟨404, [9]⟩, none⟩ "/w5" (fun _ => none) "ZZZZ999" .CCD).outcome =
      .returned none ∧
    (∀ p, (get_ligand_cif ⟨.ok ⟨404, [9]⟩, none⟩ "/w5" (fun _ => none) "ZZZZ999" .CCD).fs p =
      (fun _ => (none : Option (List Nat))) p) ∧
    ∃ pre mid post,
      (get_ligand_cif ⟨.ok ⟨404, [9]⟩, none⟩ "/w5" (fun _ => none) "ZZZZ999" .CCD).printed =
        [pre ++ "ZZZZ999" ++ mid ++ ligandType.display .CCD ++ post] :=
  non_success_prints_and_returns_none ⟨.ok ⟨404, [9]⟩, none⟩ "/w5" (fun _ => none)
    "ZZZZ999" .CCD ⟨404, [9]⟩ (by decide) rfl (by decide)

/-- C6: a category whose value is none of `"ccd"`, `"prd"`, `"clc"` makes
the call raise `UnboundLocalError` deterministically before any network
access: no URL is ever requested and no file is touched. -/
theorem unknown_category_fails_before_network (w : WorldEnv) (cwd : String)
    (fs : String → Option (List Nat)) (id : String) (v disp : String)
    (hv : ∀ lt : ligandType, v ≠ lt.value) :
    (get_ligand_cif_run w cwd fs id v disp).outcome = .raised .unboundLocalError ∧
    (get_ligand_cif_run w cwd fs id v disp).gets = [] ∧
    ∀ p, (get_ligand_cif_run w cwd fs id v disp).fs p = fs p := by
  rw [run_unbound (matchLigandDir_unmatched hv id)]
  exact ⟨rfl, rfl, fun p => rfl⟩

/-- C6 witness: category value `"abc"` never reaches the network. -/
theorem unknown_category_fails_before_network_witness :
    (get_ligand_cif_run ⟨.ok ⟨200, []⟩, none⟩ "/w6" (fun _ => none) "HEM" "abc" "?").outcome =
      .raised .unboundLocalError ∧
    (get_ligand_cif_run ⟨.ok ⟨200, []⟩, none⟩ "/w6" (fun _ => none) "HEM" "abc" "?").gets = [] ∧
    ∀ p, (get_ligand_cif_run ⟨.ok ⟨200, []⟩, none⟩ "/w6" (fun _ => none) "HEM" "abc" "?").fs p =
      (fun _ => (none : Option (List Nat))) p :=
  unknown_category_fails_before_network ⟨.ok ⟨200, []⟩, none⟩ "/w6" (fun _ => none) "HEM"
    "abc" "?" (by intro lt; cases lt <;> decide)

/-- C7: a second successful fetch over a filesystem that already holds
`<identifier>.cif` overwrites that file with the new payload without
error and leaves every other path unchanged. -/
theorem refetch_overwrites_prior_file (cwd : String) (fs0 : String → Option (List Nat))
    (id : String) (lt : ligandType) (resp : HttpResponse) (old : List Nat)
    (hne : id ≠ "") (h200 : resp.status_code = 200)
    (hprev : fs0 (osPathJoin cwd (id ++ ".cif")) = some old) :
    (get_ligand_cif ⟨.ok resp, none⟩ cwd fs0 id lt).outcome =
      .returned (some (osPathJoin cwd (id ++ ".cif"))) ∧
    (get_ligand_cif ⟨.ok resp, none⟩ cwd fs0 id lt).fs (osPathJoin cwd (id ++ ".cif")) =
      some resp.content ∧
    ∀ p, p ≠ osPathJoin cwd (id ++ ".cif") →
      (get_ligand_cif ⟨.ok resp, none⟩ cwd fs0 id lt).fs p = fs0 p := by
  obtain ⟨c, hc, hm⟩ := matchLigandDir_value hne lt
  unfold get_ligand_cif
  rw [run_ok_200 hm rfl h200 rfl]
  refine ⟨rfl, by simp, ?_⟩
  intro p hp
  simp [hp]

/-- C7 witness: re-fetching `"HEM"` over a filesystem already holding
`HEM.cif` with bytes `[1]` replaces them with the new payload `[2, 3]`
and leaves another file untouched. -/
theorem refetch_overwrites_prior_file_witness :
    (get_ligand_cif ⟨.ok ⟨200, [2, 3]⟩, none⟩ "/w7"
      (fun p => if p = osPathJoin "/w7" ("HEM" ++ ".cif") then some [1] else none)
      "HEM" .CCD).outcome = .returned (some (osPathJoin "/w7" ("HEM" ++ ".cif"))) ∧
    (get_ligand_cif ⟨.ok ⟨200, [2, 3]⟩, none⟩ "/w7"
      (fun p => if p = osPathJoin "/w7" ("HEM" ++ ".cif") then some [1] else none)
      "HEM" .CCD).fs (osPathJoin "/w7" ("HEM" ++ ".cif")) = some [2, 3] ∧
    ∀ p, p ≠ osPathJoin "/w7" ("HEM" ++ ".cif") →
      (get_ligand_cif ⟨.ok ⟨200, [2, 3]⟩, none⟩ "/w7"
        (fun p => if p = osPathJoin "/w7" ("HEM" ++ ".cif") then some [1] else none)
        "HEM" .CCD).fs p =
      (fun p => if p = osPathJoin "/w7" ("HEM" ++ ".cif") then some [1] else none) p :=
  refetch_overwrites_prior_file "/w7"
    (fun p => if p = osPathJoin "/w7" ("HEM" ++ ".cif") then some [1] else none)
    "HEM" .CCD ⟨200, [2, 3]⟩ [1] (by decide) rfl (by simp)

/-- C8: the failed `assert` (non-200 status) is the only locally handled
failure — it prints the diagnostic and returns `None` — while an
environmental exception raised by the GET, or raised during the write
after a 200 response, propagates to the caller. -/
theorem only_assertion_failure_handled (cwd : String) (fs : String → Option (List Nat))
    (id : String) (lt : ligandType) (hne : id ≠ "") :
    (∀ (e : EnvExc) (wo : Option EnvExc),
        (get_ligand_cif ⟨.error e, wo⟩ cwd fs id lt).outcome = .raised (.envExc e)) ∧
    (∀ (resp : HttpResponse) (e : EnvExc), resp.status_code = 200 →
        (get_ligand_cif ⟨.ok resp, some e⟩ cwd fs id lt).outcome = .raised (.envExc e)) ∧
    (∀ resp : HttpResponse, resp.status_code ≠ 200 →
        (get_ligand_cif ⟨.ok resp, none⟩ cwd fs id lt).outcome = .returned none ∧
        (get_ligand_cif ⟨.ok resp, none⟩ cwd fs id lt).printed =
          [failMsg id lt.display]) := by
  obtain ⟨c, hc, hm⟩ := matchLigandDir_value hne lt
  refine ⟨?_, ?_, ?_⟩
  · intro e wo
    unfold get_ligand_cif
    rw [run_get_exc hm rfl]
  · intro resp e h200
    unfold get_ligand_cif
    rw [run_write_exc hm rfl h200 rfl]
  · intro resp h200
    unfold get_ligand_cif
    rw [run_not_200 hm rfl h200]
    exact ⟨rfl, rfl⟩

/-- C8 witness at identifier `"CLA"`, category CLC. -/
theorem only_assertion_failure_handled_witness :
    (∀ (e : EnvExc) (wo : Option EnvExc),
        (get_ligand_cif ⟨.error e, wo⟩ "/w8" (fun _ => none) "CLA" .CLC).outcome =
          .raised (.envExc e)) ∧
    (∀ (resp : HttpResponse) (e : EnvExc), resp.status_code = 200 →
        (get_ligand_cif ⟨.ok resp, some e⟩ "/w8" (fun _ => none) "CLA" .CLC).outcome =
          .raised (.envExc e)) ∧
    (∀ resp : HttpResponse, resp.status_code ≠ 200 →
        (get_ligand_cif ⟨.ok resp, none⟩ "/w8" (fun _ => none) "CLA" .CLC).outcome =
          .returned none ∧
        (get_ligand_cif ⟨.ok resp, none⟩ "/w8" (fun _ => none) "CLA" .CLC).printed =
          [failMsg "CLA" (ligandType.display .CLC)]) :=
  only_assertion_failure_handled "/w8" (fun _ => none) "CLA" .CLC (by decide)

/-- C9: two successful fetches of the same identifier and category whose
responses carry byte-identical payloads have the same outcome, return the
same path, and leave byte-identical artifacts at that path, whatever the
two initial filesystems were. -/
theorem equal_payloads_equal_artifacts (cwd : String)
    (fs1 fs2 : String → Option (List Nat)) (id : String) (lt : ligandType)
    (r1 r2 : HttpResponse) (hne : id ≠ "")
    (h1 : r1.status_code = 200) (h2 : r2.status_code = 200) (hc : r1.content = r2.content) :
    (get_ligand_cif ⟨.ok r1, none⟩ cwd fs1 id lt).outcome =
      (get_ligand_cif ⟨.ok r2, none⟩ cwd fs2 id lt).outcome ∧
    (get_ligand_cif ⟨.ok r1, none⟩ cwd fs1 id lt).outcome =
      .returned (some (osPathJoin cwd (id ++ ".cif"))) ∧
    (get_ligand_cif ⟨.ok r1, none⟩ cwd fs1 id lt).fs (osPathJoin cwd (id ++ ".cif")) =
      (get_ligand_cif ⟨.ok r2, none⟩ cwd fs2 id lt).fs (osPathJoin cwd (id ++ ".cif")) := by
  obtain ⟨c, hcs, hm⟩ := matchLigandDir_value hne lt
  unfold get_ligand_cif
  rw [run_ok_200 hm rfl h1 rfl, run_ok_200 hm rfl h2 rfl]
  refine ⟨rfl, rfl, ?_⟩
  simp [hc]

/-- C9 witness: equal payloads `[5, 6]` over different starting
filesystems produce identical artifacts for `"PRD"`-category `"P01"`. -/
theorem equal_payloads_equal_artifacts_witness :
    (get_ligand_cif ⟨.ok ⟨200, [5, 6]⟩, none⟩ "/w9" (fun _ => none) "P01" .PRD).outcome =
      (get_ligand_cif ⟨.ok ⟨200, [5, 6]⟩, none⟩ "/w9" (fun _ => some []) "P01" .PRD).outcome ∧
    (get_ligand_cif ⟨.ok ⟨200, [5, 6]⟩, none⟩ "/w9" (fun _ => none) "P01" .PRD).outcome =
      .returned (some (osPathJoin "/w9" ("P01" ++ ".cif"))) ∧
    (get_ligand_cif ⟨.ok ⟨200, [5, 6]⟩, none⟩ "/w9" (fun _ => none) "P01" .PRD).fs
        (osPathJoin "/w9" ("P01" ++ ".cif")) =
      (get_ligand_cif ⟨.ok ⟨200, [5, 6]⟩, none⟩ "/w9" (fun _ => some []) "P01" .PRD).fs
        (osPathJoin "/w9" ("P01" ++ ".cif")) :=
  equal_payloads_equal_artifacts "/w9" (fun _ => none) (fun _ => some []) "P01" .PRD
    ⟨200, [5, 6]⟩ ⟨200, [5, 6]⟩ (by decide) rfl rfl rfl

/-- C10: the empty identifier makes every category raise an uncaught
`IndexError` in the shard derivation, before any GET and before any file
is created. -/
theorem empty_identifier_raises_index_error (w : WorldEnv) (cwd : String)
    (fs : String → Option (List Nat)) (lt : ligandType) :
    (get_ligand_cif w cwd fs "" lt).outcome = .raised .indexError ∧
    (get_ligand_cif w cwd fs "" lt).gets = [] ∧
    ∀ p, (get_ligand_cif w cwd fs "" lt).fs p = fs p := by
  unfold get_ligand_cif
  rw [run_index_error (matchLigandDir_empty lt)]
  exact ⟨rfl, rfl, fun p => rfl⟩
